import Mathlib

/-!
Verification of the FINANCE_APP monthly aggregation pipeline.

Shallow embedding of `app_streamlit.py` and `pages/1_Fluxo_de_Caixa.py`.
Monetary values are modeled as exact rationals (the spec fixes the
arithmetic as exact: "no rounding during accumulation", "all arithmetic is
total over real numbers").  Pandas frames are modeled as lists of records,
CSV text cells as `List Char`, and period timestamps as explicit
year/month/day records.
-/

namespace FinApp

/-- A calendar date (pandas `Timestamp` at day granularity, midnight). -/
structure Date where
  year : Nat
  month : Nat
  day : Nat
deriving DecidableEq

/-- Chronological sort key; order-isomorphic to date order for
month ≤ 12 and day ≤ 31, which every parsed/valid date satisfies. -/
def Date.key (d : Date) : Nat := (d.year * 13 + d.month) * 32 + d.day

/-- Gregorian leap year, as implemented by the datetime library. -/
def isLeap (y : Nat) : Bool := (y % 4 == 0 && y % 100 != 0) || y % 400 == 0

/-- Number of days in a month, as validated by the datetime library. -/
def daysInMonth (y m : Nat) : Nat :=
  if m = 2 then (if isLeap y then 29 else 28)
  else if m = 4 ∨ m = 6 ∨ m = 9 ∨ m = 11 then 30 else 31

/-- A date that an actual pandas `Timestamp` at day granularity can carry:
a real calendar day inside the nanosecond `Timestamp` year range. -/
def ValidDate (d : Date) : Prop :=
  1 ≤ d.day ∧ d.day ≤ daysInMonth d.year d.month ∧
  1 ≤ d.month ∧ d.month ≤ 12 ∧ 1678 ≤ d.year ∧ d.year ≤ 2261

instance : DecidablePred ValidDate := fun d => by
  unfold ValidDate; infer_instance

/-- Decimal digit character (`0`–`9` for values below ten). -/
def digitChar (n : Nat) : Char :=
  if n = 0 then '0' else if n = 1 then '1' else if n = 2 then '2'
  else if n = 3 then '3' else if n = 4 then '4' else if n = 5 then '5'
  else if n = 6 then '6' else if n = 7 then '7' else if n = 8 then '8'
  else if n = 9 then '9' else '*'

/-- Two-digit zero-padded decimal rendering (strftime `%d` / `%m`). -/
def pad2 (n : Nat) : List Char :=
  if n < 10 then ['0', digitChar n] else [digitChar (n / 10), digitChar (n % 10)]

/-- Four-digit year rendering (strftime `%Y`; `Timestamp` years fit in 4 digits). -/
def render4 (n : Nat) : List Char :=
  [digitChar (n / 1000 % 10), digitChar (n / 100 % 10),
   digitChar (n / 10 % 10), digitChar (n % 10)]

/-- Value of a decimal digit character. -/
def charToDigit (c : Char) : Option Nat :=
  if c = '0' then some 0 else if c = '1' then some 1 else if c = '2' then some 2
  else if c = '3' then some 3 else if c = '4' then some 4 else if c = '5' then some 5
  else if c = '6' then some 6 else if c = '7' then some 7 else if c = '8' then some 8
  else if c = '9' then some 9 else none

/-- Reads an all-digits character run as a decimal number (accumulator form). -/
def charsToNatAux : List Char → Nat → Option Nat
  | [], acc => some acc
  | c :: cs, acc =>
    match charToDigit c with
    | some d => charsToNatAux cs (acc * 10 + d)
    | none => none

/-- Reads a nonempty all-digits character run as a decimal number. -/
def charsToNat (l : List Char) : Option Nat :=
  if l.isEmpty then none else charsToNatAux l 0

/-- Splits a character run on a separator character (like `str.split`):
`n` separators yield `n + 1` fields. -/
def splitOnChar (sep : Char) : List Char → List (List Char)
  | [] => [[]]
  | c :: cs =>
    match splitOnChar sep cs with
    | [] => [[c]]
    | f :: rest => if c = sep then [] :: f :: rest else (c :: f) :: rest

/-! ## Statement Calculator (`dre_from_inputs`, app_streamlit.py lines 56-100) -/

/-- The flat record of monetary inputs collected by the form
(one field per `number_input`, all constrained non-negative by the form). -/
structure StatementInputs where
  vendas_prod : ℚ
  prest_serv : ℚ
  outras_rec : ℚ
  devolucoes : ℚ
  descontos : ℚ
  imp_vendas : ℚ
  cpv_prod : ℚ
  csv_serv : ℚ
  mao_obra : ℚ
  comissoes : ℚ
  marketing : ℚ
  vendas : ℚ
  sal_admin : ℚ
  aluguel : ℚ
  utilidades : ℚ
  mat_escr : ℚ
  contab : ℚ
  seguros : ℚ
  deprec : ℚ
  provisoes : ℚ
  jur_pagos : ℚ
  iof : ℚ
  tarifas : ℚ
  jur_receb : ℚ
  rend_apl : ℚ
  ir_val : ℚ
  csll_val : ℚ
deriving DecidableEq

/-- All form fields are non-negative (`min_value=0.0` on every input). -/
def StatementInputs.NonNeg (i : StatementInputs) : Prop :=
  0 ≤ i.vendas_prod ∧ 0 ≤ i.prest_serv ∧ 0 ≤ i.outras_rec ∧
  0 ≤ i.devolucoes ∧ 0 ≤ i.descontos ∧ 0 ≤ i.imp_vendas ∧
  0 ≤ i.cpv_prod ∧ 0 ≤ i.csv_serv ∧ 0 ≤ i.mao_obra ∧
  0 ≤ i.comissoes ∧ 0 ≤ i.marketing ∧ 0 ≤ i.vendas ∧
  0 ≤ i.sal_admin ∧ 0 ≤ i.aluguel ∧ 0 ≤ i.utilidades ∧
  0 ≤ i.mat_escr ∧ 0 ≤ i.contab ∧ 0 ≤ i.seguros ∧
  0 ≤ i.deprec ∧ 0 ≤ i.provisoes ∧
  0 ≤ i.jur_pagos ∧ 0 ≤ i.iof ∧ 0 ≤ i.tarifas ∧
  0 ≤ i.jur_receb ∧ 0 ≤ i.rend_apl ∧
  0 ≤ i.ir_val ∧ 0 ≤ i.csll_val

instance : DecidablePred StatementInputs.NonNeg := fun i => by
  unfold StatementInputs.NonNeg; infer_instance

/-- The dict returned by `dre_from_inputs`. -/
structure StatementResult where
  receita_bruta : ℚ
  deducoes : ℚ
  receita_liq : ℚ
  cpv_csv : ℚ
  lucro_bruto : ℚ
  desp_comerciais : ℚ
  desp_adm : ℚ
  outras_oper : ℚ
  despesas_oper : ℚ
  ebit : ℚ
  despesas_fin : ℚ
  receitas_fin : ℚ
  lair : ℚ
  lucro_liq : ℚ
deriving DecidableEq

/-- The function dre_from_inputs (app_streamlit.py lines 56-100), line for line. -/
def dre_from_inputs (i : StatementInputs) : StatementResult :=
  let receita_bruta := i.vendas_prod + i.prest_serv + i.outras_rec
  let deducoes := i.devolucoes + i.descontos + i.imp_vendas
  let receita_liq := max (receita_bruta - deducoes) 0
  let cpv_csv := i.cpv_prod + i.csv_serv + i.mao_obra
  let lucro_bruto := receita_liq - cpv_csv
  let desp_comerciais := i.comissoes + i.marketing + i.vendas
  let desp_adm := i.sal_admin + i.aluguel + i.utilidades + i.mat_escr + i.contab + i.seguros
  let outras_oper := i.deprec + i.provisoes
  let despesas_oper := desp_comerciais + desp_adm + outras_oper
  let ebit := lucro_bruto - despesas_oper
  let despesas_fin := i.jur_pagos + i.iof + i.tarifas
  let receitas_fin := i.jur_receb + i.rend_apl
  let lair := ebit - despesas_fin + receitas_fin
  let lucro_liq := lair - i.ir_val - i.csll_val
  ⟨receita_bruta, deducoes, receita_liq, cpv_csv, lucro_bruto,
   desp_comerciais, desp_adm, outras_oper, despesas_oper, ebit,
   despesas_fin, receitas_fin, lair, lucro_liq⟩

/-! ## Time Series Merger and Derived Metrics (app_streamlit.py lines 241-290) -/

/-- One row of the monthly `db` frame (the historical/merged series).
`mes` is the period timestamp abstracted to its chronological key;
`acumulado` and `margem_liq_pct` are derived afterwards (lines 280-281),
not carried in the row. -/
structure Row where
  mes : Nat
  receita_liq : ℚ
  cpv_csv : ℚ
  despesas : ℚ
  lucro_liq : ℚ
  entradas : ℚ
  saidas : ℚ
  delta_caixa : ℚ
  orcado_receita : ℚ
  orcado_despesas : ℚ
deriving DecidableEq

/-- Ascending order on period keys used by `db.sort_values("mes")`. -/
def rowLE (a b : Row) : Prop := a.mes ≤ b.mes

instance : DecidableRel rowLE := fun a b => Nat.decLe a.mes b.mes

instance : IsTotal Row rowLE := ⟨fun a b => Nat.le_total a.mes b.mes⟩

instance : IsTrans Row rowLE := ⟨fun _ _ _ h h' => Nat.le_trans h h'⟩

/-- The upsert of `linha_atual` into `db` (lines 274-279): if `db` is empty
the new row becomes the base; otherwise every row for the same period is
removed and the new row appended; either way the result is re-sorted
ascending by period. -/
def mergeRow (db : List Row) (novo : Row) : List Row :=
  if db = [] then List.insertionSort rowLE [novo]
  else List.insertionSort rowLE ((db.filter fun r => r.mes != novo.mes) ++ [novo])

/-- Running prefix sum with accumulator (`Series.cumsum`). -/
def cumsumFrom (acc : ℚ) : List ℚ → List ℚ
  | [] => []
  | d :: ds => (acc + d) :: cumsumFrom (acc + d) ds

/-- The assignment `db["acumulado"] = db["delta_caixa"].cumsum()` (line 280). -/
def acumulado (db : List Row) : List ℚ :=
  cumsumFrom 0 (db.map Row.delta_caixa)

/-- Per-row net margin, `np.where(receita_liq > 0, lucro_liq/receita_liq*100, 0.0)`
(lines 258 and 281). -/
def margem_liq_pct (r : Row) : ℚ :=
  if 0 < r.receita_liq then r.lucro_liq / r.receita_liq * 100 else 0

/-- The current-month KPI `margem_liq` (line 238): Python truthiness guard
`... if receita_liq else 0.0`, i.e. divide only when `receita_liq ≠ 0`. -/
def margem_liq (lucro_liq receita_liq : ℚ) : ℚ :=
  if receita_liq ≠ 0 then lucro_liq / receita_liq * 100 else 0

/-- Arithmetic mean of a column (`Series.mean`). -/
def mean (l : List ℚ) : ℚ := l.sum / l.length

/-- The trailing slice `Series.tail(3)`: the last `min 3 n` entries. -/
def tail3 (l : List ℚ) : List ℚ := l.drop (l.length - 3)

/-- The MM3 expense projection (lines 354-358): zero unless the series has
at least 2 rows, otherwise the mean of the last three `despesas` values. -/
def proj_despesa (db : List Row) : ℚ :=
  if 2 ≤ db.length then mean (tail3 (db.map Row.despesas)) else 0

/-! ## Alert Evaluator (app_streamlit.py lines 284-290) -/

/-- The three alert messages, with the figures interpolated into the
margin message carried as data. -/
inductive Alerta where
  | margemBaixa : ℚ → ℚ → Alerta
  | despesasAcimaOrcado : Alerta
  | caixaNegativo : Alerta
deriving DecidableEq

/-- The `alertas` list (lines 284-290): the three rules evaluated
independently, in fixed order. -/
def alertas (margem limiar_margem orcado_despesas_mes despesas_oper saldo_final : ℚ) :
    List Alerta :=
  (if margem < limiar_margem then [Alerta.margemBaixa margem limiar_margem] else []) ++
  (if 0 < orcado_despesas_mes ∧ orcado_despesas_mes < despesas_oper
    then [Alerta.despesasAcimaOrcado] else []) ++
  (if saldo_final < 0 then [Alerta.caixaNegativo] else [])

/-! ## Cash Ledger Normalizer (`ensure_history_df`, app_streamlit.py lines 24-54)

The column-level steps (lower/strip names, alias renaming, filling absent
columns with zero, `to_numeric(errors="coerce").fillna(0)`) are the identity
on a frame that already has the canonical columns with numeric values, so
the model carries the eight canonical columns directly, with the numeric
cells already coerced to rationals.  The `mes` cell is modeled explicitly,
because the period pipeline
`pd.to_datetime(col.astype(str).str.replace("/", "-") + "-01", errors="coerce")`
is where re-normalization behaves nontrivially. -/

/-- A raw `mes` cell: either CSV text, or a datetime produced by a previous
normalization pass. -/
inductive MesCell where
  | raw : List Char → MesCell
  | dt : Date → MesCell
deriving DecidableEq

/-- A historical input row with canonical columns (see header note). -/
structure RawHist where
  mes : MesCell
  receita_liq : ℚ
  cpv_csv : ℚ
  despesas : ℚ
  entradas : ℚ
  saidas : ℚ
  orcado_receita : ℚ
  orcado_despesas : ℚ
deriving DecidableEq

/-- A canonical output row of `ensure_history_df`. -/
structure HistRow where
  mes : Date
  receita_liq : ℚ
  cpv_csv : ℚ
  despesas : ℚ
  entradas : ℚ
  saidas : ℚ
  orcado_receita : ℚ
  orcado_despesas : ℚ
deriving DecidableEq

/-- Result of `astype(str)` on the `mes` column: text stays itself; a datetime64
column whose values are all midnight is formatted date-only, `YYYY-MM-DD`
(pandas `format_array_from_datetime` date-detection). -/
def mesCellStr : MesCell → List Char
  | .raw s => s
  | .dt d => render4 d.year ++ '-' :: pad2 d.month ++ '-' :: pad2 d.day

/-- The substitution `.str.replace("/", "-")`. -/
def slashToDash (l : List Char) : List Char :=
  l.map fun c => if c = '/' then '-' else c

/-- Behavior of `pd.to_datetime(s, errors="coerce")` on the strings this pipeline
produces: `YYYY-MM` parses to the first day of the month, `YYYY-M[M]-DD`
to that calendar day (4-digit year inside `Timestamp` bounds, month 1-12,
day valid for the month); anything else is `NaT`. -/
def parseMes (l : List Char) : Option Date :=
  match splitOnChar '-' l with
  | [ys, ms] =>
    match charsToNat ys, charsToNat ms with
    | some y, some m =>
      if ys.length = 4 ∧ 1678 ≤ y ∧ y ≤ 2261 ∧ 1 ≤ m ∧ m ≤ 12
        then some ⟨y, m, 1⟩ else none
    | _, _ => none
  | [ys, ms, ds] =>
    match charsToNat ys, charsToNat ms, charsToNat ds with
    | some y, some m, some d =>
      if ys.length = 4 ∧ 1678 ≤ y ∧ y ≤ 2261 ∧ 1 ≤ m ∧ m ≤ 12 ∧
          1 ≤ d ∧ d ≤ daysInMonth y m
        then some ⟨y, m, d⟩ else none
    | _, _, _ => none
  | _ => none

/-- Ascending order on normalized periods used by `df.sort_values("mes")`. -/
def histLE (a b : HistRow) : Prop := a.mes.key ≤ b.mes.key

instance : DecidableRel histLE := fun a b => Nat.decLe a.mes.key b.mes.key

instance : IsTotal HistRow histLE := ⟨fun a b => Nat.le_total a.mes.key b.mes.key⟩

instance : IsTrans HistRow histLE := ⟨fun _ _ _ h h' => Nat.le_trans h h'⟩

/-- The normalizer ensure_history_df (lines 24-54) on a frame with canonical columns:
parse `mes` via stringify / slash-to-dash / append `"-01"` / coerce, drop
the rows whose period did not parse, and sort ascending by period. -/
def ensure_history_df (rows : List RawHist) : List HistRow :=
  List.insertionSort histLE
    (rows.filterMap fun r =>
      (parseMes (slashToDash (mesCellStr r.mes) ++ ['-', '0', '1'])).map fun d =>
        ⟨d, r.receita_liq, r.cpv_csv, r.despesas, r.entradas, r.saidas,
         r.orcado_receita, r.orcado_despesas⟩)

/-- A canonical row viewed again as normalizer input: the `mes` column is
now a datetime column, the numeric columns are unchanged. -/
def histToRaw (h : HistRow) : RawHist :=
  ⟨.dt h.mes, h.receita_liq, h.cpv_csv, h.despesas, h.entradas, h.saidas,
   h.orcado_receita, h.orcado_despesas⟩

/-! ## Ledger page (`pages/1_Fluxo_de_Caixa.py`) -/

/-- One ledger transaction (a row of `data/transacoes.csv` after loading). -/
structure Transacao where
  data : Date
  tipo : String
  categoria : String
  descricao : String
  valor : ℚ
  conta : String
  pago : Bool
deriving DecidableEq

/-- The grouping key `to_period("M")`: the year-month of a transaction (line 140). -/
def anoMes (t : Transacao) : Nat × Nat := (t.data.year, t.data.month)

/-- The filter block (lines 131-137): inclusive date range, accepted types,
optional account and category (the `"(todas)"` choices are `none`). -/
def filtra (df : List Transacao) (ini fim : Date) (tipo_sel : List String)
    (conta_sel cat_sel : Option String) : List Transacao :=
  let f1 := df.filter fun t => ini.key ≤ t.data.key && t.data.key ≤ fim.key
  let f2 := f1.filter fun t => tipo_sel.contains t.tipo
  let f3 := match conta_sel with
    | none => f2
    | some c => f2.filter fun t => t.conta == c
  match cat_sel with
  | none => f3
  | some c => f3.filter fun t => t.categoria == c

/-- Per-period outflow total: the `"Saídas"` column of `resumo`
(lines 142-143), the sum of `valor` over `Despesa` rows of that month. -/
def saidasMes (f : List Transacao) (am : Nat × Nat) : ℚ :=
  ((f.filter fun t => t.tipo == "Despesa" && anoMes t == am).map Transacao.valor).sum

/-- The per-category expense total of one month: the category breakdown of
`despesas_cat` (line 179) restricted to that month's rows. -/
def despesasCatMes (f : List Transacao) (am : Nat × Nat) (c : String) : ℚ :=
  ((f.filter fun t => t.tipo == "Despesa" && anoMes t == am && t.categoria == c).map
    Transacao.valor).sum

/-- The breakdown despesas_cat (line 179): expense totals grouped by category over the
whole filtered set. -/
def despesas_cat (f : List Transacao) (c : String) : ℚ :=
  ((f.filter fun t => t.tipo == "Despesa" && t.categoria == c).map Transacao.valor).sum

/-- A row of the persisted `data/transacoes.csv` as written by `to_csv`:
the date is serialized text, the four text columns are written verbatim
(an empty string becomes an empty field), and the numeric and boolean
cells round-trip through CSV text exactly, so they are carried as their
values.  The NA handling of `read_csv` happens at load time, not here. -/
structure RawTransacao where
  data : List Char
  tipo : String
  categoria : String
  descricao : String
  valor : ℚ
  conta : String
  pago : Bool
deriving DecidableEq

/-- The default NA sentinels of `pd.read_csv` (`keep_default_na=True`):
a text cell equal to one of these — in particular the empty field an empty
string serializes to — is loaded as NaN, not as text. -/
def naTokens : List String :=
  ["", "#N/A", "#N/A N/A", "#NA", "-1.#IND", "-1.#QNAN", "-NaN", "-nan",
   "1.#IND", "1.#QNAN", "<NA>", "N/A", "NA", "NULL", "NaN", "None",
   "n/a", "nan", "null"]

/-- Loading one text cell: NA sentinels (and empty fields) become NaN
(`none`); everything else stays text. -/
def readTextCell (s : String) : Option String :=
  if s ∈ naTokens then none else some s

/-- A transaction row as it sits in the frame returned by `load_transacoes`:
the text columns may hold NaN (`none`) where `read_csv` coerced an
empty or NA-like cell. -/
structure LoadedTransacao where
  data : Date
  tipo : Option String
  categoria : Option String
  descricao : Option String
  valor : ℚ
  conta : Option String
  pago : Bool
deriving DecidableEq

/-- The loaded row a fully-textual in-memory row corresponds to. -/
def toLoaded (t : Transacao) : LoadedTransacao :=
  ⟨t.data, some t.tipo, some t.categoria, some t.descricao, t.valor, some t.conta, t.pago⟩

/-- A row whose text cells survive the CSV round-trip as text: none of
them is an NA sentinel (in particular none is empty). -/
def CsvStable (t : Transacao) : Prop :=
  t.tipo ∉ naTokens ∧ t.categoria ∉ naTokens ∧
  t.descricao ∉ naTokens ∧ t.conta ∉ naTokens

instance : DecidablePred CsvStable := fun t => by
  unfold CsvStable; infer_instance

/-- Ascending order on loaded transaction dates used by `sort_values("data")`. -/
def loadedLE (a b : LoadedTransacao) : Prop := a.data.key ≤ b.data.key

instance : DecidableRel loadedLE := fun a b => Nat.decLe a.data.key b.data.key

instance : IsTotal LoadedTransacao loadedLE :=
  ⟨fun a b => Nat.le_total a.data.key b.data.key⟩

instance : IsTrans LoadedTransacao loadedLE :=
  ⟨fun _ _ _ h h' => Nat.le_trans h h'⟩

/-- Date serialization `strftime("%d/%m/%Y")` (line 34). -/
def fmtDayFirst (d : Date) : List Char :=
  pad2 d.day ++ '/' :: pad2 d.month ++ '/' :: render4 d.year

/-- The writer save_transacoes (lines 31-36): serialize each date to `DD/MM/YYYY`
text and write the rows in order. -/
def save_transacoes (df : List Transacao) : List RawTransacao :=
  df.map fun t =>
    ⟨fmtDayFirst t.data, t.tipo, t.categoria, t.descricao, t.valor, t.conta, t.pago⟩

/-- Behavior of `pd.read_csv(..., parse_dates=["data"], dayfirst=True)` on one cell:
day/month/year split on `/`, validated as a calendar day inside the
`Timestamp` year range; otherwise the cell does not parse. -/
def parseDayFirst (l : List Char) : Option Date :=
  match splitOnChar '/' l with
  | [ds, ms, ys] =>
    match charsToNat ds, charsToNat ms, charsToNat ys with
    | some d, some m, some y =>
      if 1 ≤ d ∧ d ≤ daysInMonth y m ∧ 1 ≤ m ∧ m ≤ 12 ∧ 1678 ≤ y ∧ y ≤ 2261
        then some ⟨y, m, d⟩ else none
    | _, _, _ => none
  | _ => none

/-- Parses every date cell of the stored frame and applies the NA coercion
of `read_csv` to the text cells; the whole load fails if any date cell
fails (the subsequent `pd.to_datetime` has no `errors="coerce"`). -/
def parseRows : List RawTransacao → Option (List LoadedTransacao)
  | [] => some []
  | r :: rs =>
    match parseDayFirst r.data, parseRows rs with
    | some d, some ts =>
      some (⟨d, readTextCell r.tipo, readTextCell r.categoria, readTextCell r.descricao,
             r.valor, readTextCell r.conta, r.pago⟩ :: ts)
    | _, _ => none

/-- The reader load_transacoes (lines 16-29): read the stored rows, parse the dates,
coerce dtypes, and return the frame sorted ascending by date. -/
def load_transacoes (raw : List RawTransacao) : Option (List LoadedTransacao) :=
  (parseRows raw).map (List.insertionSort loadedLE)

/-! ## Concrete sample data (used to instantiate the theorems below) -/

/-- The §8 scenario inputs: gross 10000, deductions 1000, cogs 4000,
opex 3000, financial expense 200, financial income 100, tax 500. -/
def exInputs : StatementInputs :=
  ⟨10000, 0, 0, 1000, 0, 0, 4000, 0, 0, 3000, 0, 0, 0, 0, 0, 0, 0, 0, 0, 0,
   200, 0, 0, 100, 0, 500, 0⟩

/-- The all-zero form submission. -/
def exInputsZero : StatementInputs :=
  ⟨0, 0, 0, 0, 0, 0, 0, 0, 0, 0, 0, 0, 0, 0, 0, 0, 0, 0, 0, 0, 0, 0, 0, 0, 0, 0, 0⟩

/-- January: inflow 1000, outflow 800 (§8 scenario). -/
def rowJan : Row := ⟨1, 1000, 0, 0, 0, 1000, 800, 200, 0, 0⟩

/-- February: inflow 1200, outflow 1500 (§8 scenario). -/
def rowFev : Row := ⟨2, 1200, 0, 0, 0, 1200, 1500, -300, 0, 0⟩

/-- A March row submitted as the current month. -/
def rowMar : Row := ⟨3, 900, 0, 0, 0, 900, 400, 500, 0, 0⟩

/-- A second, different row for the January period (duplicate period key). -/
def rowJanDup : Row := ⟨1, 555, 0, 0, 0, 555, 0, 555, 0, 0⟩

/-- A two-month history with distinct period keys. -/
def exDb : List Row := [rowJan, rowFev]

/-- A four-month series for the projection (despesas 10, 20, 30, 40). -/
def exDb4 : List Row :=
  [⟨1, 0, 0, 10, 0, 0, 0, 0, 0, 0⟩, ⟨2, 0, 0, 20, 0, 0, 0, 0, 0, 0⟩,
   ⟨3, 0, 0, 30, 0, 0, 0, 0, 0, 0⟩, ⟨4, 0, 0, 40, 0, 0, 0, 0, 0, 0⟩]

/-- A one-month series (below the ≥ 2 gate). -/
def exDb1 : List Row := [⟨1, 0, 0, 10, 0, 0, 0, 0, 0, 0⟩]

/-- A row with positive net revenue 2 and net result 1. -/
def rowPos : Row := ⟨1, 2, 0, 0, 1, 0, 0, 0, 0, 0⟩

/-- A row with zero net revenue and nonzero net result. -/
def rowZero : Row := ⟨1, 0, 0, 0, 7, 0, 0, 0, 0, 0⟩

/-- A one-row history whose `mes` is the CSV text `2024-01`. -/
def exHist : List RawHist :=
  [⟨.raw ['2', '0', '2', '4', '-', '0', '1'], 100, 40, 30, 0, 0, 0, 0⟩]

/-- Two ledger transactions out of date order. -/
def exLedger : List Transacao :=
  [⟨⟨2024, 3, 15⟩, "Despesa", "Aluguel", "aluguel", 800, "Geral", true⟩,
   ⟨⟨2024, 1, 5⟩, "Receita", "Vendas", "venda", 1000, "Geral", true⟩]

/-- A transaction whose description is empty — the form's default, since
the description input only has a placeholder. -/
def exEmptyDesc : Transacao :=
  ⟨⟨2024, 5, 10⟩, "Despesa", "Outros", "", 50, "Geral", true⟩

/-! ## Theorems -/

/-- C1: for all non-negative StatementInputs, the Statement Calculator
returns `net_revenue = max(gross_revenue − deductions, 0)`, and every "="
line of the StatementResult equals the exact sum/difference of its
component lines: `gross_profit = net_revenue − cost_of_goods`,
`EBIT = gross_profit − operating_expenses` with
`operating_expenses = commercial + administrative + other`,
`pre_tax = EBIT − financial_expenses + financial_income`, and
`net_result = pre_tax − income-tax components`, with no rounding during
accumulation (the arithmetic is exact rational arithmetic). -/
theorem C1_dre_exact_lines (i : StatementInputs) (_h : i.NonNeg) :
    (dre_from_inputs i).receita_liq =
      max ((dre_from_inputs i).receita_bruta - (dre_from_inputs i).deducoes) 0 ∧
    (dre_from_inputs i).lucro_bruto =
      (dre_from_inputs i).receita_liq - (dre_from_inputs i).cpv_csv ∧
    (dre_from_inputs i).despesas_oper =
      (dre_from_inputs i).desp_comerciais + (dre_from_inputs i).desp_adm +
        (dre_from_inputs i).outras_oper ∧
    (dre_from_inputs i).ebit =
      (dre_from_inputs i).lucro_bruto - (dre_from_inputs i).despesas_oper ∧
    (dre_from_inputs i).lair =
      (dre_from_inputs i).ebit - (dre_from_inputs i).despesas_fin +
        (dre_from_inputs i).receitas_fin ∧
    (dre_from_inputs i).lucro_liq =
      (dre_from_inputs i).lair - i.ir_val - i.csll_val :=
  ⟨rfl, rfl, rfl, rfl, rfl, rfl⟩

/-- Witness for C1 at the §8 scenario inputs. -/
theorem C1_dre_exact_lines_witness :
    exInputs.NonNeg ∧
    (dre_from_inputs exInputs).lucro_liq =
      (dre_from_inputs exInputs).lair - exInputs.ir_val - exInputs.csll_val :=
  ⟨by norm_num [StatementInputs.NonNeg, exInputs],
   (C1_dre_exact_lines exInputs
     (by norm_num [StatementInputs.NonNeg, exInputs])).2.2.2.2.2⟩

/-- Helper: the merged series is a permutation of the filtered history with
the new row appended. -/
theorem mergeRow_perm (db : List Row) (novo : Row) :
    (mergeRow db novo).Perm ((db.filter fun r => r.mes != novo.mes) ++ [novo]) := by
  unfold mergeRow
  split
  · rename_i h
    subst h
    exact List.perm_insertionSort rowLE [novo]
  · exact List.perm_insertionSort _ _

/-- Helper: value of the running prefix sum at index `k`. -/
theorem cumsumFrom_getD (l : List ℚ) : ∀ (acc : ℚ) (k : Nat), k < l.length →
    (cumsumFrom acc l).getD k 0 = acc + (l.take (k + 1)).sum := by
  induction l with
  | nil => intro acc k h; simp at h
  | cons d ds ih =>
    intro acc k h
    cases k with
    | zero => simp [cumsumFrom]
    | succ k =>
      simp only [cumsumFrom, List.getD_cons_succ, List.take_succ_cons, List.sum_cons]
      rw [ih (acc + d) k (by simpa using h)]
      ring

/-- C2: for every merged series, the cumulative cash balance at the `k`-th
row in ascending period order equals the sum of `net_cash_delta` over rows
`0..k` — a full prefix sum over the sorted merged series, recomputed over
the post-merge rows (the statement is about the series `mergeRow db novo`
produced by the merge, so it reflects the post-merge deltas). -/
theorem C2_acumulado_prefix_sum (db : List Row) (novo : Row) (k : Nat)
    (h : k < (mergeRow db novo).length) :
    (acumulado (mergeRow db novo)).getD k 0 =
      (((mergeRow db novo).take (k + 1)).map Row.delta_caixa).sum := by
  unfold acumulado
  rw [cumsumFrom_getD _ 0 k (by simpa using h)]
  rw [← List.map_take]
  simp

/-- Witness for C2: the merged Jan/Feb/Mar series at row index 1. -/
theorem C2_acumulado_prefix_sum_witness :
    1 < (mergeRow exDb rowMar).length ∧
    (acumulado (mergeRow exDb rowMar)).getD 1 0 =
      (((mergeRow exDb rowMar).take 2).map Row.delta_caixa).sum :=
  ⟨by decide, C2_acumulado_prefix_sum exDb rowMar 1 (by decide)⟩

/-- Helper: filtering the merged series back to the other periods gives, up
to permutation, the filtered history. -/
theorem mergeRow_filter_ne (db : List Row) (r : Row) :
    ((mergeRow db r).filter fun x => x.mes != r.mes).Perm
      (db.filter fun x => x.mes != r.mes) := by
  have h := (mergeRow_perm db r).filter (fun x => x.mes != r.mes)
  rw [List.filter_append, List.filter_filter] at h
  simpa using h

/-- Helper: merging the same row again permutes the once-merged series. -/
theorem mergeRow_twice_perm (db : List Row) (r : Row) :
    (mergeRow (mergeRow db r) r).Perm (mergeRow db r) := by
  have h2 := mergeRow_perm (mergeRow db r) r
  have h3 := (mergeRow_filter_ne db r).append_right [r]
  exact h2.trans (h3.trans (mergeRow_perm db r).symm)

/-- C3: merging the same PeriodRecord for the same period twice yields a
series whose rows for that period are exactly the single new row
(overwrite-by-key replacement, not accumulation), and the re-submission
for the already-present period leaves the series length unchanged. -/
theorem C3_merge_twice_replaces (db : List Row) (r : Row) :
    ((mergeRow (mergeRow db r) r).filter fun x => x.mes == r.mes) = [r] ∧
    (mergeRow (mergeRow db r) r).length = (mergeRow db r).length := by
  constructor
  · have h2 := (mergeRow_perm (mergeRow db r) r).filter (fun x => x.mes == r.mes)
    rw [List.filter_append, List.filter_filter] at h2
    have hnil :
        ((mergeRow db r).filter fun a => (a.mes == r.mes) && (a.mes != r.mes)) = [] := by
      rw [List.filter_eq_nil_iff]
      intro a _
      simp
    rw [hnil] at h2
    have hr : ([r].filter fun x => x.mes == r.mes) = [r] := by simp
    rw [hr] at h2
    exact List.perm_singleton.mp (by simpa using h2)
  · exact (mergeRow_twice_perm db r).length_eq

/-- C4 counterexample: a canonical historical series may contain duplicate
period keys (the Normalizer does not deduplicate), and the merger removes
only the rows matching the NEW record's period — merging a February row
into a history holding two January rows leaves two rows for January. -/
theorem C4_counterexample :
    ((mergeRow [rowJan, rowJanDup] rowFev).countP fun x => x.mes == 1) = 2 := by
  decide

/-- C4 (amended): after the Time Series Merger runs, the series contains
exactly one row for the NEW record's period key — unconditionally, for
every input series including ones with duplicate period keys; and when
the input historical series has no duplicate period keys, the merged
series has no duplicate period keys either.  (Duplicate keys for OTHER
periods already present in the input survive the merge — see the
counterexample.) -/
theorem C4_merge_unique_for_new_period (db : List Row) (novo : Row) :
    ((mergeRow db novo).countP fun x => x.mes == novo.mes) = 1 ∧
    ((db.map Row.mes).Nodup → ((mergeRow db novo).map Row.mes).Nodup) := by
  constructor
  · rw [(mergeRow_perm db novo).countP_eq, List.countP_append]
    have h0 :
        ((db.filter fun r => r.mes != novo.mes).countP fun x => x.mes == novo.mes) = 0 := by
      rw [List.countP_eq_zero]
      intro a ha
      have := (List.mem_filter.mp ha).2
      simp at this ⊢
      exact this
    rw [h0]
    simp
  · intro h
    rw [List.Perm.nodup_iff ((mergeRow_perm db novo).map Row.mes)]
    rw [List.map_append, List.nodup_append]
    refine ⟨List.Nodup.sublist ((List.filter_sublist db).map Row.mes) h, by simp, ?_⟩
    intro x hx hy
    simp at hy
    subst hy
    obtain ⟨a, ha, ha2⟩ := List.mem_map.mp hx
    have := (List.mem_filter.mp ha).2
    simp at this
    exact this ha2

/-- Witness for C4 (amended): merging a replacement February row into the
duplicate-free Jan/Feb history. -/
theorem C4_merge_unique_for_new_period_witness :
    ((mergeRow exDb rowFev).countP fun x => x.mes == rowFev.mes) = 1 ∧
    (exDb.map Row.mes).Nodup ∧
    ((mergeRow exDb rowFev).map Row.mes).Nodup :=
  ⟨(C4_merge_unique_for_new_period exDb rowFev).1, by decide,
   (C4_merge_unique_for_new_period exDb rowFev).2 (by decide)⟩

/-- C5 (code bug): the Cash Ledger Normalizer is NOT idempotent.  The first
pass parses the text period `2024-01` into the datetime 2024-01-01 and
keeps the row; the second pass stringifies that datetime to `2024-01-01`,
appends `-01` producing `2024-01-01-01`, which the coercing date parse
rejects — so every row of an already-normalized series is dropped:
`normalize (normalize x) = []` while `normalize x` is the one-row series. -/
theorem C5_normalize_not_idempotent :
    ((ensure_history_df exHist).map HistRow.mes = [⟨2024, 1, 1⟩]) ∧
    ensure_history_df ((ensure_history_df exHist).map histToRaw) = [] := by
  decide

/-- C6: the trailing expense projection equals the arithmetic mean of
`despesas` over the last `min 3 n` rows of the series (inclusive of the
current period) whenever the series has `n ≥ 2` rows, and equals zero
whenever the series has fewer than 2 rows. -/
theorem C6_proj_despesa_mm3 (db : List Row) :
    (2 ≤ db.length →
      proj_despesa db =
        ((db.map Row.despesas).drop (db.length - 3)).sum / (min 3 db.length : ℕ)) ∧
    (db.length < 2 → proj_despesa db = 0) := by
  constructor
  · intro h
    unfold proj_despesa mean tail3
    rw [if_pos h, List.length_map, List.length_drop, List.length_map]
    congr 1
    have : db.length - (db.length - 3) = min 3 db.length := by omega
    rw [this]
  · intro h
    unfold proj_despesa
    rw [if_neg (by omega)]

/-- Witness for C6: the four-month series averages its last three expense
values, and the one-month series projects zero. -/
theorem C6_proj_despesa_mm3_witness :
    (2 ≤ exDb4.length ∧
      proj_despesa exDb4 =
        ((exDb4.map Row.despesas).drop (exDb4.length - 3)).sum / (min 3 exDb4.length : ℕ)) ∧
    (exDb1.length < 2 ∧ proj_despesa exDb1 = 0) :=
  ⟨⟨by decide, (C6_proj_despesa_mm3 exDb4).1 (by decide)⟩,
   ⟨by decide, (C6_proj_despesa_mm3 exDb1).2 (by decide)⟩⟩

/-- C7: for every row of the derived series and for the current period's
KPI, the net margin percentage equals `net_result / net_revenue × 100`
when `net_revenue > 0` and equals exactly 0 when `net_revenue = 0`,
regardless of `net_result` (no NaN, no error: total rational arithmetic). -/
theorem C7_margem_liq_zero_guard (r : Row) (i : StatementInputs) :
    (0 < r.receita_liq → margem_liq_pct r = r.lucro_liq / r.receita_liq * 100) ∧
    (r.receita_liq = 0 → margem_liq_pct r = 0) ∧
    (0 < (dre_from_inputs i).receita_liq →
      margem_liq (dre_from_inputs i).lucro_liq (dre_from_inputs i).receita_liq =
        (dre_from_inputs i).lucro_liq / (dre_from_inputs i).receita_liq * 100) ∧
    ((dre_from_inputs i).receita_liq = 0 →
      margem_liq (dre_from_inputs i).lucro_liq (dre_from_inputs i).receita_liq = 0) := by
  refine ⟨fun h => ?_, fun h => ?_, fun h => ?_, fun h => ?_⟩
  · rw [margem_liq_pct, if_pos h]
  · rw [margem_liq_pct, if_neg (by rw [h]; exact lt_irrefl 0)]
  · rw [margem_liq, if_pos (ne_of_gt h)]
  · rw [margem_liq, if_neg (by simp [h])]

/-- Witness for C7: a row with net revenue 2, a row with zero net revenue
and nonzero net result, and the all-zero statement. -/
theorem C7_margem_liq_zero_guard_witness :
    margem_liq_pct rowPos = rowPos.lucro_liq / rowPos.receita_liq * 100 ∧
    margem_liq_pct rowZero = 0 ∧
    margem_liq (dre_from_inputs exInputsZero).lucro_liq
      (dre_from_inputs exInputsZero).receita_liq = 0 :=
  ⟨(C7_margem_liq_zero_guard rowPos exInputsZero).1 (by norm_num [rowPos]),
   (C7_margem_liq_zero_guard rowZero exInputsZero).2.1 (by norm_num [rowZero]),
   (C7_margem_liq_zero_guard rowZero exInputsZero).2.2.2
     (by norm_num [dre_from_inputs, exInputsZero])⟩

/-- C8: the overspend alert is emitted if and only if budgeted expenses are
positive and actual operating expenses exceed them; in particular a zero
budget (meaning "not set") never raises the alert. -/
theorem C8_overspend_iff (margem limiar orcado despesas saldo : ℚ) :
    Alerta.despesasAcimaOrcado ∈ alertas margem limiar orcado despesas saldo ↔
      0 < orcado ∧ orcado < despesas := by
  unfold alertas
  split_ifs with h1 h2 h3 <;> simp_all

/-- Helper: a sum of mapped values splits along a Boolean predicate. -/
theorem sum_map_filter_add {α : Type} (p : α → Bool) (f : α → ℚ) (l : List α) :
    ((l.filter p).map f).sum + ((l.filter fun a => !(p a)).map f).sum = (l.map f).sum := by
  induction l with
  | nil => simp
  | cons a l ih =>
    by_cases h : p a
    · simp [List.filter_cons, h]
      rw [← ih]
      ring
    · simp [List.filter_cons, h]
      rw [← ih]
      ring

/-- Helper: summing mapped values fiberwise over a duplicate-free list of
keys covering the list reproduces the total sum. -/
theorem sum_fiber {α κ : Type} [BEq κ] [LawfulBEq κ] (g : α → κ) (f : α → ℚ) :
    ∀ (cs : List κ), cs.Nodup → ∀ (l : List α), (∀ a ∈ l, g a ∈ cs) →
      (l.map f).sum =
        (cs.map fun c => ((l.filter fun a => g a == c).map f).sum).sum := by
  intro cs
  induction cs with
  | nil =>
    intro _ l hmem
    cases l with
    | nil => simp
    | cons a l => exact absurd (hmem a (by simp)) (by simp)
  | cons c cs ih =>
    intro hnd l hmem
    obtain ⟨hc, hnd'⟩ := List.nodup_cons.mp hnd
    rw [List.map_cons, List.sum_cons]
    rw [← sum_map_filter_add (fun a => g a == c) f l]
    congr 1
    have hmem' : ∀ a ∈ l.filter fun a => !(g a == c), g a ∈ cs := by
      intro a ha
      obtain ⟨hal, hane⟩ := List.mem_filter.mp ha
      have hcs := hmem a hal
      simp only [bne_iff_ne, ne_eq, Bool.not_eq_eq_eq_not, Bool.not_true, beq_eq_false_iff_ne,
        ne_eq] at hane
      rcases List.mem_cons.mp hcs with h | h
      · exact absurd h hane
      · exact h
    rw [ih hnd' _ hmem']
    congr 1
    apply List.map_congr_left
    intro c' hc'
    rw [List.filter_filter]
    have hfilt :
        (l.filter fun a => (g a == c') && !(g a == c)) = l.filter fun a => g a == c' := by
      apply List.filter_congr
      intro a _
      have hcc : c' ≠ c := fun e => hc (e ▸ hc')
      cases hga : (g a == c') with
      | false => simp
      | true =>
        have hg : g a = c' := eq_of_beq hga
        simp [hg, hcc]
    rw [hfilt]

/-- C9: in the Ledger Aggregator, for every filtered transaction set and
every period, the per-period outflow total (the `Saídas` group sum over
`Despesa` rows of that month) equals the sum over the categories present
of that month's per-category expense totals: expenses in the same month
with different categories are summed independently per category while the
monthly outflow total is the sum across the categories. -/
theorem C9_saidas_cat_partition (df : List Transacao) (ini fim : Date)
    (tipo_sel : List String) (conta_sel cat_sel : Option String) (am : Nat × Nat) :
    saidasMes (filtra df ini fim tipo_sel conta_sel cat_sel) am =
      ((((filtra df ini fim tipo_sel conta_sel cat_sel).filter fun t =>
            t.tipo == "Despesa" && anoMes t == am).map Transacao.categoria).dedup.map
        fun c => despesasCatMes (filtra df ini fim tipo_sel conta_sel cat_sel) am c).sum := by
  set f := filtra df ini fim tipo_sel conta_sel cat_sel with hf
  set l := f.filter fun t => t.tipo == "Despesa" && anoMes t == am with hl
  show (l.map Transacao.valor).sum = _
  rw [sum_fiber Transacao.categoria Transacao.valor (l.map Transacao.categoria).dedup
    (List.nodup_dedup _) l (fun a ha => List.mem_dedup.mpr (List.mem_map_of_mem _ ha))]
  congr 1
  apply List.map_congr_left
  intro c hc
  show ((l.filter fun a => a.categoria == c).map Transacao.valor).sum = despesasCatMes f am c
  unfold despesasCatMes
  rw [hl, List.filter_filter]
  have hfilt :
      (f.filter fun a => (a.categoria == c) && (a.tipo == "Despesa" && anoMes a == am)) =
        f.filter fun t => t.tipo == "Despesa" && anoMes t == am && t.categoria == c := by
    apply List.filter_congr
    intro a _
    rw [Bool.and_comm]
  rw [hfilt]

/-- Helper: digit characters are never the slash separator. -/
theorem digitChar_ne_slash (x : Nat) : digitChar x ≠ '/' := by
  unfold digitChar
  split_ifs <;> decide

/-- Helper: the two-digit rendering never contains a slash. -/
theorem not_slash_mem_pad2 (n : Nat) : '/' ∉ pad2 n := by
  unfold pad2
  split <;>
    · intro h
      rcases List.mem_cons.mp h with h | h
      · first
        | exact absurd h (by decide)
        | exact digitChar_ne_slash _ h.symm
      · rcases List.mem_singleton.mp (by simpa using h) with h
        exact digitChar_ne_slash _ h.symm

/-- Helper: the four-digit year rendering never contains a slash. -/
theorem not_slash_mem_render4 (n : Nat) : '/' ∉ render4 n := by
  intro h
  unfold render4 at h
  simp only [List.mem_cons, List.mem_singleton, List.not_mem_nil, or_false] at h
  rcases h with h | h | h | h <;> exact digitChar_ne_slash _ h.symm

/-- Helper: splitting never produces an empty field list. -/
theorem splitOnChar_ne_nil (sep : Char) : ∀ l, splitOnChar sep l ≠ [] := by
  intro l
  cases l with
  | nil => simp [splitOnChar]
  | cons c cs =>
    simp only [splitOnChar]
    split
    · simp
    · split <;> simp

/-- Helper: splitting at an explicit separator occurrence peels the prefix. -/
theorem splitOnChar_append (sep : Char) :
    ∀ (a b : List Char), sep ∉ a →
      splitOnChar sep (a ++ sep :: b) = a :: splitOnChar sep b := by
  intro a
  induction a with
  | nil =>
    intro b _
    simp only [List.nil_append, splitOnChar]
    cases h : splitOnChar sep b with
    | nil => exact absurd h (splitOnChar_ne_nil sep b)
    | cons f rest => simp [h]
  | cons c a ih =>
    intro b hmem
    have hc : c ≠ sep := fun e => hmem (by simp [e])
    simp only [List.cons_append, splitOnChar, List.append_eq]
    rw [ih b fun hm => hmem (List.mem_cons_of_mem _ hm)]
    simp [hc]

/-- Helper: a separator-free run splits into the single field. -/
theorem splitOnChar_single (sep : Char) :
    ∀ l, sep ∉ l → splitOnChar sep l = [l] := by
  intro l
  induction l with
  | nil => intro _; rfl
  | cons c cs ih =>
    intro h
    have hc : c ≠ sep := fun e => h (by simp [e])
    simp only [splitOnChar]
    rw [ih fun hm => h (List.mem_cons_of_mem _ hm)]
    simp [hc]

/-- Helper: reading back a rendered digit. -/
theorem charToDigit_digitChar (d : Nat) (h : d < 10) :
    charToDigit (digitChar d) = some d := by
  interval_cases d <;> rfl

/-- Helper: the two-digit rendering reads back as its value. -/
theorem charsToNat_pad2 (n : Nat) (h : n ≤ 99) : charsToNat (pad2 n) = some n := by
  have h0 : charToDigit '0' = some 0 := rfl
  rcases Nat.lt_or_ge n 10 with h10 | h10
  · simp [charsToNat, pad2, h10, charsToNatAux, h0, charToDigit_digitChar n h10]
  · have hq : n / 10 < 10 := by omega
    have hr : n % 10 < 10 := Nat.mod_lt _ (by norm_num)
    have hn : ¬n < 10 := by omega
    simp [charsToNat, pad2, hn, charsToNatAux, charToDigit_digitChar _ hq,
      charToDigit_digitChar _ hr]
    omega

/-- Helper: the four-digit rendering reads back as its value. -/
theorem charsToNat_render4 (n : Nat) (h : n ≤ 9999) :
    charsToNat (render4 n) = some n := by
  have d1 : n / 1000 % 10 < 10 := Nat.mod_lt _ (by norm_num)
  have d2 : n / 100 % 10 < 10 := Nat.mod_lt _ (by norm_num)
  have d3 : n / 10 % 10 < 10 := Nat.mod_lt _ (by norm_num)
  have d4 : n % 10 < 10 := Nat.mod_lt _ (by norm_num)
  simp [charsToNat, render4, charsToNatAux, charToDigit_digitChar _ d1,
    charToDigit_digitChar _ d2, charToDigit_digitChar _ d3, charToDigit_digitChar _ d4]
  omega

/-- Helper: months have at most 31 days. -/
theorem daysInMonth_le (y m : Nat) : daysInMonth y m ≤ 31 := by
  unfold daysInMonth
  split_ifs <;> omega

/-- Helper: `DD/MM/YYYY` serialization round-trips through the day-first
parse for every valid date. -/
theorem parseDayFirst_fmt (d : Date) (h : ValidDate d) :
    parseDayFirst (fmtDayFirst d) = some d := by
  obtain ⟨h1, h2, h3, h4, h5, h6⟩ := h
  have hday : d.day ≤ 99 := le_trans h2 (le_trans (daysInMonth_le _ _) (by norm_num))
  unfold parseDayFirst fmtDayFirst
  simp only [List.append_assoc, List.cons_append]
  rw [splitOnChar_append '/' _ _ (not_slash_mem_pad2 d.day)]
  rw [splitOnChar_append '/' _ _ (not_slash_mem_pad2 d.month)]
  rw [splitOnChar_single '/' _ (not_slash_mem_render4 d.year)]
  have ed : charsToNat (pad2 d.day) = some d.day := charsToNat_pad2 _ hday
  have em : charsToNat (pad2 d.month) = some d.month := charsToNat_pad2 _ (by omega)
  have ey : charsToNat (render4 d.year) = some d.year := charsToNat_render4 _ (by omega)
  simp [ed, em, ey, h1, h2, h3, h4, h5, h6]

/-- Helper: parsing back the saved frame recovers the original rows when
every text cell survives the NA coercion. -/
theorem parseRows_save (df : List Transacao)
    (h : ∀ t ∈ df, ValidDate t.data ∧ CsvStable t) :
    parseRows (save_transacoes df) = some (df.map toLoaded) := by
  induction df with
  | nil => rfl
  | cons t ts ih =>
    show parseRows (save_transacoes (t :: ts)) = some ((t :: ts).map toLoaded)
    simp only [save_transacoes, List.map_cons, parseRows]
    rw [parseDayFirst_fmt t.data (h t (by simp)).1]
    have hts : parseRows (save_transacoes ts) = some (ts.map toLoaded) :=
      ih fun x hx => h x (List.mem_cons_of_mem _ hx)
    simp only [save_transacoes] at hts
    rw [hts]
    obtain ⟨s1, s2, s3, s4⟩ := (h t (by simp)).2
    simp [readTextCell, s1, s2, s3, s4, toLoaded]

end FinApp
